import Mathlib

/-!
Verification development for the Customer Analytics Platform backend
(`backend/app`): a shallow embedding of the analysis job engine — the job
lifecycle handlers in `app/api/routes.py` and the segmentation pipelines in
`app/services/analysis_service.py` — together with theorems settling the
frozen claims about that code.

Machine reals (numpy / sklearn floats) are embedded as rationals (`Rat`);
the fixed-seed k-means++ initialisation of sklearn is replaced by a
deterministic initialisation (first k points), which no claim depends on.
-/

deriving instance DecidableEq for Except

namespace CustomerAnalytics

/-! ## Rationals

Machine floats are embedded as unnormalized rationals: numerator over a
positive denominator, compared by cross-multiplication.  Only arithmetic and
comparisons are needed by the embedded code, never field algebra. -/

/-- An unnormalized rational number standing in for a machine float. -/
structure Q where
  num : Int
  den : Nat
deriving DecidableEq, Repr

instance : Inhabited Q := ⟨⟨0, 1⟩⟩

def Q.ofInt (n : Int) : Q := ⟨n, 1⟩

def Q.add (a b : Q) : Q := ⟨a.num * b.den + b.num * a.den, a.den * b.den⟩

def Q.sub (a b : Q) : Q := ⟨a.num * b.den - b.num * a.den, a.den * b.den⟩

def Q.mul (a b : Q) : Q := ⟨a.num * b.num, a.den * b.den⟩

/-- Division; the zero-divisor case is unreachable on the embedded code
paths (the code guards every divisor), mapped to 0 by convention. -/
def Q.div (a b : Q) : Q :=
  if b.num = 0 then ⟨0, 1⟩
  else if b.num < 0 then ⟨-(a.num * b.den), a.den * b.num.natAbs⟩
  else ⟨a.num * b.den, a.den * b.num.natAbs⟩

def Q.lt (a b : Q) : Bool := a.num * b.den < b.num * a.den

def Q.le (a b : Q) : Bool := a.num * b.den ≤ b.num * a.den

/-- Value-level zero test (the representation is unnormalized). -/
def Q.isZero (a : Q) : Bool := a.num == 0

def Q.sq (a : Q) : Q := a.mul a

def Q.sumList (l : List Q) : Q := l.foldl Q.add ⟨0, 1⟩

/-! ## Data model (`app/database/models.py`) -/

/-- One row of the `customer_data` table (`models.CustomerData`). -/
structure CustomerRow where
  id : Nat
  dataset_id : Nat
  original_customer_id : Nat
  gender : String
  age : Int
  annual_income : Int
  spending_score : Int
  cluster_label : Option Int
deriving DecidableEq, Repr

/-- The `status` column of `analysis_jobs`; the code writes exactly the four
strings queued / running / completed / failed. -/
inductive JobStatus where
  | queued
  | running
  | completed
  | failed
deriving DecidableEq, Repr

/-- The `results` JSON payload written by the two background handlers in
`routes.py`: success payloads (lines 51-55 and 249-254) and the failure
payload (lines 69 and 266).  `cluster_distribution` keys are stringified as
in the source. -/
inductive JobResults where
  | staticSuccess (summary : String) (total_records_processed : Nat)
      (cluster_distribution : List (String × Nat))
  | dynamicSuccess (summary : String) (features_used : List String)
      (n_clusters : Int) (cluster_distribution : List (String × Nat))
  | failure (error : String) (features_attempted : Option (List String))
deriving DecidableEq, Repr

/-- One row of the `analysis_jobs` table (`models.AnalysisJob`).  Timestamps
are abstract ticks. -/
structure AnalysisJob where
  id : String
  dataset_id : Nat
  status : JobStatus
  results : Option JobResults
  created_at : Nat
  finished_at : Option Nat
deriving DecidableEq, Repr

/-- The persistent database state the analysis engine touches: dataset ids,
customer rows and job rows. -/
structure Store where
  datasets : List Nat
  customers : List CustomerRow
  jobs : List AnalysisJob
deriving DecidableEq, Repr

/-- A SQLAlchemy session: mutations accumulate in `pending` and become
visible in `committed` only at `db.commit()`. -/
structure Session where
  committed : Store
  pending : Store
deriving DecidableEq, Repr

/-- `db.commit()`. -/
def commitS (s : Session) : Session := ⟨s.pending, s.pending⟩

/-- `db.query(CustomerData).filter(dataset_id == dsId)` /
`pd.read_sql` result: the dataset's rows. -/
def rowsOf (store : Store) (dsId : Nat) : List CustomerRow :=
  store.customers.filter (fun r => r.dataset_id == dsId)

/-- `db.query(AnalysisJob).filter(AnalysisJob.id == jobId).first()`. -/
def findJob (store : Store) (jobId : String) : Option AnalysisJob :=
  store.jobs.find? (fun j => j.id == jobId)

/-- Write a job row back (attribute assignment on the mapped object,
applied at flush): replaces the row with the same primary key. -/
def putJob (store : Store) (j : AnalysisJob) : Store :=
  { store with jobs := store.jobs.map (fun x => if x.id == j.id then j else x) }

/-- Stage a job mutation in the session (not yet committed). -/
def setJob (s : Session) (j : AnalysisJob) : Session :=
  { s with pending := putJob s.pending j }

/-- One `db.query(CustomerData).filter(id == u.1).update({cluster_label: u.2})`
statement. -/
def applyLabel (store : Store) (u : Nat × Int) : Store :=
  { store with customers := store.customers.map (fun r =>
      if r.id == u.1 then { r with cluster_label := some u.2 } else r) }

/-- The per-row update loop of both pipelines
(`analysis_service.py` lines 64-66 and 171-173). -/
def applyLabels (store : Store) (ups : List (Nat × Int)) : Store :=
  ups.foldl applyLabel store

/-! ## Errors

The exceptions the embedded code can raise.  `analysis_service.py` raises
`RuntimeError` / `ValueError` with the messages below; the KMeans /
array-validation errors are the ones sklearn raises at `fit` time.  The code
defines no error class of its own (in particular no FeatureMappingError). -/

inductive AnalysisError where
  /-- `RuntimeError` at `analysis_service.py:34`. -/
  | modelUnavailableAnalysis
  /-- `RuntimeError` at `analysis_service.py:81`. -/
  | modelUnavailablePrediction
  /-- `ValueError` at `analysis_service.py:41`. -/
  | emptyDatasetStatic
  /-- `ValueError` at `analysis_service.py:118`. -/
  | emptyDatasetDynamic (dsId : Nat)
  /-- sklearn array validation on a zero-width matrix inside `KMeans.fit`. -/
  | zeroFeatures (nSamples : Nat)
  /-- sklearn array validation on a zero-row matrix inside `KMeans.fit`. -/
  | zeroSamples
  /-- sklearn parameter validation of `n_clusters` inside `KMeans.fit`. -/
  | invalidNClusters (k : Int)
  /-- sklearn check of `n_samples >= n_clusters` inside `KMeans.fit`. -/
  | tooFewSamples (n : Nat) (k : Int)
  /-- An injected storage-layer write failure during the per-row label
  update loop (the `PersistenceError` of the design's error taxonomy);
  models any error raised partway through that loop. -/
  | persistenceFailure
deriving DecidableEq, Repr

/-- `str(e)` for each of the raisable errors. -/
def AnalysisError.message : AnalysisError → String
  | .modelUnavailableAnalysis => "ML models are not available. Cannot run analysis."
  | .modelUnavailablePrediction => "ML models are not available. Cannot run prediction."
  | .emptyDatasetStatic => "No customer data found for this dataset to analyze."
  | .emptyDatasetDynamic dsId => "No customer data found for dataset " ++ toString dsId ++ "."
  | .zeroFeatures n => "Found array with 0 feature(s) (shape=(" ++ toString n ++
      ", 0)) while a minimum of 1 is required by KMeans."
  | .zeroSamples => "Found array with 0 sample(s) while a minimum of 1 is required by KMeans."
  | .invalidNClusters k => "The n_clusters parameter of KMeans must be an int in the range [1, inf). Got " ++ toString k ++ " instead."
  | .tooFewSamples n k => "n_samples=" ++ toString n ++ " should be >= n_clusters=" ++ toString k ++ "."
  | .persistenceFailure => "database error during cluster label update"

/-- Case-insensitive substring test: does `hay` mention `needle`? -/
def mentions (needle hay : String) : Bool :=
  go (needle.data.map Char.toLower) (hay.data.map Char.toLower)
where
  startsWith : List Char → List Char → Bool
    | [], _ => true
    | _ :: _, [] => false
    | a :: as, b :: bs => a == b && startsWith as bs
  go (n : List Char) : List Char → Bool
    | [] => startsWith n []
    | c :: cs => startsWith n (c :: cs) || go n cs

/-! ## Model Registry (`analysis_service.py` lines 12-23)

The pre-trained artifact pair loaded at process start: a `StandardScaler`
fitted on the two canonical columns and a fitted `KMeans` model.  Either is
`None` when the artifact file is missing. -/

/-- The stored scaler: per-column mean and scale for
(annual income, spending score).  `transform` computes `(x - mean) / scale`
per column. -/
structure Scaler where
  meanIncome : Q
  scaleIncome : Q
  meanScore : Q
  scaleScore : Q
deriving DecidableEq, Repr

def Scaler.transform (sc : Scaler) (p : Q × Q) : Q × Q :=
  ((p.1.sub sc.meanIncome).div sc.scaleIncome, (p.2.sub sc.meanScore).div sc.scaleScore)

/-- Index (starting at 0) of the first element of `l` minimizing `d`;
0 on the empty list (unreachable: callers check nonemptiness). -/
def argminIdx (d : α → Q) : List α → Nat
  | [] => 0
  | x :: xs => go xs 1 0 (d x)
where
  go : List α → Nat → Nat → Q → Nat
    | [], _, best, _ => best
    | y :: ys, i, best, bestD =>
      if (d y).lt bestD then go ys (i + 1) i (d y) else go ys (i + 1) best bestD

/-- Squared euclidean distance in the plane. -/
def sqDist2 (a b : Q × Q) : Q := ((a.1.sub b.1).sq).add ((a.2.sub b.2).sq)

/-- The stored centroid model: one centroid per cluster id. -/
structure KMeansModel where
  centers : List (Q × Q)
deriving DecidableEq, Repr

/-- `kmeans_model.predict` on a single scaled point: the id of the nearest
centroid (first one on ties, as in numpy argmin). -/
def KMeansModel.predict1 (m : KMeansModel) (p : Q × Q) : Nat :=
  argminIdx (fun c => sqDist2 p c) m.centers

/-- The module-level `kmeans_model` / `scaler` pair of
`analysis_service.py`; a component is `none` when the artifact failed to
load. -/
structure Registry where
  kmeans_model : Option KMeansModel
  scaler : Option Scaler
deriving DecidableEq, Repr

/-! ## Static Segmentation Pipeline
(`analysis_service.run_segmentation_analysis`, lines 26-73) -/

/-- The annotated DataFrame built at `analysis_service.py:57-61`: each row
with the label predicted from its scaled (annual income, spending score)
pair. -/
def staticAnnotated (km : KMeansModel) (sc : Scaler) (rows : List CustomerRow) :
    List (CustomerRow × Nat) :=
  rows.map fun r =>
    (r, km.predict1 (sc.transform (Q.ofInt r.annual_income, Q.ofInt r.spending_score)))

/-- The update statements the write-back loop issues before an injected
storage failure at statement index `failAt` (`none`: no failure; an index
past the end of the loop never fires).  Returns the issued updates and
whether the loop raised. -/
def updatesIssued (updates : List (Nat × Int)) (failAt : Option Nat) :
    List (Nat × Int) × Bool :=
  match failAt with
  | none => (updates, false)
  | some i => if i < updates.length then (updates.take i, true) else (updates, false)

/-- `run_segmentation_analysis(db, dataset_id)`.  In source order: the
module-level model check (line 33), the fetch (lines 37-38, reading
committed state through the engine), the empty check (line 40), prediction
(lines 57-61), the per-row label update loop (lines 64-66, staged on the
session, with an optional injected storage failure) and the commit
(line 68).  Raising is returning `.error` with the session as left at the
raise point. -/
def run_segmentation_analysis (reg : Registry) (failAt : Option Nat) (s : Session)
    (dsId : Nat) : Except AnalysisError (List (CustomerRow × Nat)) × Session :=
  match reg.kmeans_model, reg.scaler with
  | some km, some sc =>
    let df := rowsOf s.committed dsId
    if df.isEmpty then (.error .emptyDatasetStatic, s)
    else
      let annotated := staticAnnotated km sc df
      let updates := annotated.map fun rl => (rl.1.id, (rl.2 : Int))
      match updatesIssued updates failAt with
      | (issued, true) =>
        (.error .persistenceFailure, { s with pending := applyLabels s.pending issued })
      | (issued, false) =>
        (.ok annotated, commitS { s with pending := applyLabels s.pending issued })
  | _, _ => (.error .modelUnavailableAnalysis, s)

/-- `predict_single_customer(income, score)`
(`analysis_service.py` lines 75-96). -/
def predict_single_customer (reg : Registry) (income score : Q) :
    Except AnalysisError Nat :=
  match reg.kmeans_model, reg.scaler with
  | some km, some sc => .ok (km.predict1 (sc.transform (income, score)))
  | _, _ => .error .modelUnavailablePrediction

/-! ## Result summaries (`routes.py` lines 48-55 and 247-254) -/

/-- `value_counts` on the label column: each occurring label with its
multiplicity (pandas orders entries by descending count, a permutation no
claim depends on). -/
def value_counts (labels : List Int) : List (Int × Nat) :=
  labels.foldl addCount []
where
  addCount : List (Int × Nat) → Int → List (Int × Nat)
    | [], v => [(v, 1)]
    | (k, c) :: rest, v =>
      if k = v then (k, c + 1) :: rest else (k, c) :: addCount rest v

/-- Total of the counts of a distribution with stringified keys. -/
def sumCounts (dist : List (String × Nat)) : Nat :=
  (dist.map fun p => p.2).sum

/-- The `analysis_results` dict of the static handler
(`routes.py` lines 50-55); distribution keys stringified as in line 54. -/
def analysisResultsOf (dsId : Nat) (annotated : List (CustomerRow × Nat)) : JobResults :=
  .staticSuccess ("Segmentation analysis complete for dataset " ++ toString dsId ++ ".")
    annotated.length
    ((value_counts (annotated.map fun rl => (rl.2 : Int))).map fun p => (toString p.1, p.2))

/-- The `analysis_results` dict of the dynamic handler
(`routes.py` lines 248-254). -/
def dynamicResultsOf (features : List String) (n_clusters : Int)
    (df : List (CustomerRow × Nat)) : JobResults :=
  .dynamicSuccess ("Dynamic analysis complete on features: " ++ toString features ++ ".")
    features n_clusters
    ((value_counts (df.map fun rl => (rl.2 : Int))).map fun p => (toString p.1, p.2))

/-! ## Job Lifecycle Manager: static background handler
(`routes.run_background_analysis`, lines 21-74)

A handler run is embedded as a function from the committed store at
dispatch time to the committed store at handler exit, paired with the
trace of the job's committed states, one entry per `db.commit()` (what a
poller can observe).  `tick` is the value of `datetime.utcnow()`. -/

def run_background_analysis (reg : Registry) (failAt : Option Nat) (tick : Nat)
    (store : Store) (jobId : String) (datasetId : Nat) : Store × List AnalysisJob :=
  -- db = SessionLocal()
  match findJob store jobId with
  | none => (store, [])  -- line 36-38: job not found, return without writing
  | some job =>
    -- lines 41-42: job.status = "running"; db.commit()
    let jobRunning := { job with status := JobStatus.running }
    let s1 := commitS (setJob ⟨store, store⟩ jobRunning)
    match run_segmentation_analysis reg failAt s1 datasetId with
    | (.ok annotated, s2) =>
      -- lines 50-61: build results; completed; db.commit()
      -- (the service committed the label updates itself: one more observation)
      let jobDone :=
        { jobRunning with
          status := JobStatus.completed
          results := some (analysisResultsOf datasetId annotated)
          finished_at := some tick }
      let s3 := commitS (setJob s2 jobDone)
      (s3.committed, [jobRunning, jobRunning, jobDone])
    | (.error e, s2) =>
      -- lines 64-71: except branch; job is bound and truthy here;
      -- failed status committed on the same session, without rollback
      let jobFailed :=
        { jobRunning with
          status := JobStatus.failed
          results := some (.failure e.message none)
          finished_at := some tick }
      let s3 := commitS (setJob s2 jobFailed)
      (s3.committed, [jobRunning, jobFailed])
  -- line 74: finally close

/-! ## Dynamic Segmentation Pipeline
(`analysis_service.run_dynamic_segmentation_analysis`, lines 101-185) -/

/-- The fixed display-name → storage-name dict of
`analysis_service.py` lines 129-134. -/
def feature_map : List (String × String) :=
  [("Gender", "gender"), ("Age", "age"),
   ("Annual Income (k$)", "annual_income"), ("Spending Score (1-100)", "spending_score")]

/-- Dict lookup `feature_map[f]`. -/
def lookupFeature (f : String) : Option String :=
  (feature_map.find? fun p => p.1 == f).map fun p => p.2

/-- `[feature_map[f] for f in features if f in feature_map]`
(`analysis_service.py:137`): names absent from the dict are silently
dropped. -/
def resolveFeatures (features : List String) : List String :=
  features.filterMap lookupFeature

/-- `select_dtypes(include=np.number)` on the customer columns: the three
integer columns. -/
def isNumericCol (c : String) : Bool :=
  c == "age" || c == "annual_income" || c == "spending_score"

/-- `select_dtypes(include=['object'])`: the string column. -/
def isCategoricalCol (c : String) : Bool := c == "gender"

/-- Value of a numeric storage column on a row. -/
def numValue (r : CustomerRow) : String → Int
  | "age" => r.age
  | "annual_income" => r.annual_income
  | "spending_score" => r.spending_score
  | _ => 0

/-- Value of a categorical storage column on a row. -/
def catValue (r : CustomerRow) : String → String
  | "gender" => r.gender
  | _ => ""

/-- String order via the derived `Ord`. -/
def strLe (a b : String) : Bool := compare a b != Ordering.gt

/-- Insert into a sorted duplicate-free list, keeping it so. -/
def insertUnique (x : String) : List String → List String
  | [] => [x]
  | y :: ys =>
    if x == y then y :: ys
    else if strLe x y then x :: y :: ys
    else y :: insertUnique x ys

/-- `np.unique` semantics used by `OneHotEncoder.fit`: the sorted distinct
values of a column. -/
def sortedUnique (l : List String) : List String :=
  l.foldl (fun acc x => insertUnique x acc) []

/-- One-hot encoding of `v` against fitted categories; a value outside the
categories yields the all-zero vector (`handle_unknown='ignore'`). -/
def oneHot (cats : List String) (v : String) : List Q :=
  cats.map fun c => if v == c then Q.ofInt 1 else Q.ofInt 0

/-- Newton iterations approximating a square root, standing in for the
floating-point `sqrt` used by `StandardScaler`. -/
def ratSqrtIter (a : Q) : Nat → Q → Q
  | 0, x => x
  | n + 1, x => ratSqrtIter a n ((x.add (a.div x)).div (Q.ofInt 2))

def ratSqrt (a : Q) : Q :=
  if a.le (Q.ofInt 0) then Q.ofInt 0 else ratSqrtIter a 12 (if (Q.ofInt 1).le a then a else Q.ofInt 1)

def meanOf (xs : List Q) : Q := (Q.sumList xs).div (Q.ofInt xs.length)

/-- Population variance (`ddof=0`, as `StandardScaler` uses). -/
def varOf (xs : List Q) : Q :=
  (Q.sumList (xs.map fun x => (x.sub (meanOf xs)).sq)).div (Q.ofInt xs.length)

/-- `StandardScaler` scale: sqrt of the variance, with a zero scale
replaced by 1 (sklearn `_handle_zeros_in_scale`). -/
def scaleOf (xs : List Q) : Q :=
  let v := varOf xs
  if v.isZero then Q.ofInt 1 else ratSqrt v

/-- `preprocessor.fit_transform(X[analysis_features])`
(`analysis_service.py` lines 147-158): per row, the z-scored numeric
columns (in resolved order) followed by the one-hot blocks of the
categorical columns.  A `ColumnTransformer` drops a transformer whose
column selection is empty, and nothing remains for `passthrough`, so with
no resolved features every row encodes to the empty vector. -/
def buildMatrix (rows : List CustomerRow) (numF catF : List String) : List (List Q) :=
  let numStats := numF.map fun c =>
    let col := rows.map fun r => Q.ofInt (numValue r c)
    (c, meanOf col, scaleOf col)
  let catCats := catF.map fun c => (c, sortedUnique (rows.map fun r => catValue r c))
  rows.map fun r =>
    (numStats.map fun t => ((Q.ofInt (numValue r t.1)).sub t.2.1).div t.2.2)
    ++ (catCats.map fun t => oneHot t.2 (catValue r t.1)).flatten

/-- Squared euclidean distance of feature vectors. -/
def sqDistL (a b : List Q) : Q :=
  Q.sumList ((a.zip b).map fun p => (p.1.sub p.2).sq)

/-- Vector sum (vectors of one clustering run share their width). -/
def addVec (a b : List Q) : List Q := List.zipWith Q.add a b

/-- Mean of a bag of vectors; an empty cluster keeps its old centroid. -/
def meanVec (vs : List (List Q)) (old : List Q) : List Q :=
  match vs with
  | [] => old
  | v :: rest => (rest.foldl addVec v).map fun x => x.div (Q.ofInt (rest.length + 1))

/-- One Lloyd step: assign every point to its nearest centroid, then move
each centroid to the mean of its members. -/
def lloydStep (data : List (List Q)) (centers : List (List Q)) : List (List Q) :=
  let labels := data.map fun p => argminIdx (sqDistL p) centers
  (List.range centers.length).map fun j =>
    meanVec ((data.zip labels).filterMap fun pl => if pl.2 = j then some pl.1 else none)
      (centers.getD j [])

/-- Lloyd iteration to convergence or an iteration cap
(`max_iter=300` in sklearn). -/
def lloydIter (data : List (List Q)) : Nat → List (List Q) → List (List Q)
  | 0, cs => cs
  | n + 1, cs =>
    let cs2 := lloydStep data cs
    if cs2 = cs then cs else lloydIter data n cs2

/-- `KMeans(n_clusters=k, random_state=42, n_init='auto').fit_predict(X)`.
In sklearn check order at `fit` time: parameter validation of `n_clusters`,
array validation (at least 1 sample and 1 feature), then
`n_samples >= n_clusters`.  The seeded k-means++ initialisation is replaced
by a deterministic one (the first k points); no claim depends on the label
values a successful run produces. -/
def kmeansFitPredict (k : Int) (data : List (List Q)) :
    Except AnalysisError (List Nat × List (List Q)) :=
  if k < 1 then .error (.invalidNClusters k)
  else
    match data with
    | [] => .error .zeroSamples
    | d0 :: _ =>
      if d0.length = 0 then .error (.zeroFeatures data.length)
      else if data.length < k.toNat then .error (.tooFewSamples data.length k)
      else
        let centers := lloydIter data 300 (data.take k.toNat)
        .ok (data.map fun p => argminIdx (sqDistL p) centers, centers)

/-- The value `run_dynamic_segmentation_analysis` returns
(`analysis_service.py` lines 180-185). -/
structure DynOutput where
  df : List (CustomerRow × Nat)
  features : List String
  n_clusters : Int
  cluster_centers : List (List Q)
deriving DecidableEq, Repr

/-- `run_dynamic_segmentation_analysis(db, dataset_id, features, n_clusters)`.
In source order: fetch (lines 114-115), empty check (line 117), display-name
resolution (line 137), dtype partition (lines 143-144), preprocessing
(lines 147-158), clustering (lines 161-162), the per-row label update loop
(lines 171-173) and the commit (line 175). -/
def run_dynamic_segmentation_analysis (s : Session) (dsId : Nat)
    (features : List String) (n_clusters : Int) :
    Except AnalysisError DynOutput × Session :=
  let df := rowsOf s.committed dsId
  if df.isEmpty then (.error (.emptyDatasetDynamic dsId), s)
  else
    let analysis_features := resolveFeatures features
    let numerical_features := analysis_features.filter isNumericCol
    let categorical_features := analysis_features.filter isCategoricalCol
    let X_processed := buildMatrix df numerical_features categorical_features
    match kmeansFitPredict n_clusters X_processed with
    | .error e => (.error e, s)
    | .ok (labels, centers) =>
      let annotated := df.zip labels
      let updates := annotated.map fun rl => (rl.1.id, (rl.2 : Int))
      (.ok ⟨annotated, features, n_clusters, centers⟩,
        commitS { s with pending := applyLabels s.pending updates })

/-! ## Job Lifecycle Manager: dynamic background handler
(`routes.run_dynamic_background_analysis`, lines 232-270) -/

def run_dynamic_background_analysis (tick : Nat) (store : Store) (jobId : String)
    (datasetId : Nat) (features : List String) (n_clusters : Int) :
    Store × List AnalysisJob :=
  match findJob store jobId with
  | none =>
    -- line 236: `job.status = "running"` on None raises AttributeError,
    -- caught at line 262; the guard at line 264 sees job None and skips the
    -- failed-state write; the finally closes the session: no state written.
    (store, [])
  | some job =>
    -- lines 236-237: job.status = "running"; db_session.commit()
    let jobRunning := { job with status := JobStatus.running }
    let s1 := commitS (setJob ⟨store, store⟩ jobRunning)
    match run_dynamic_segmentation_analysis s1 datasetId features n_clusters with
    | (.ok out, s2) =>
      -- lines 248-259 (the service committed the label updates itself)
      let jobDone :=
        { jobRunning with
          status := JobStatus.completed
          results := some (dynamicResultsOf features n_clusters out.df)
          finished_at := some tick }
      let s3 := commitS (setJob s2 jobDone)
      (s3.committed, [jobRunning, jobRunning, jobDone])
    | (.error e, s2) =>
      -- lines 262-268: except branch, job bound and truthy
      let jobFailed :=
        { jobRunning with
          status := JobStatus.failed
          results := some (.failure e.message (some features))
          finished_at := some tick }
      let s3 := commitS (setJob s2 jobFailed)
      (s3.committed, [jobRunning, jobFailed])

/-! ## Dynamic job creation endpoint
(`routes.run_dynamic_analysis_job`, lines 211-230) -/

/-- `schemas.DynamicAnalysisRequest`: plain `int` / `List[str]` fields, no
value constraint on any of them (`schemas.py` lines 94-100). -/
structure DynamicAnalysisRequest where
  dataset_id : Nat
  features : List String
  n_clusters : Int := 5
deriving DecidableEq, Repr

/-- The synchronous part of `run_dynamic_analysis_job`: a 404 if the
dataset id does not resolve, otherwise a `queued` job row is created and
returned before any background work runs.  `newId` is the generated
`dyn-job-{uuid4}` and `now` the creation timestamp. -/
def run_dynamic_analysis_job (store : Store) (req : DynamicAnalysisRequest)
    (newId : String) (now : Nat) : Except String (AnalysisJob × Store) :=
  if store.datasets.contains req.dataset_id then
    let job : AnalysisJob :=
      { id := newId, dataset_id := req.dataset_id, status := JobStatus.queued,
        results := none, created_at := now, finished_at := none }
    .ok (job, { store with jobs := store.jobs ++ [job] })
  else
    .error ("Dataset ID " ++ toString req.dataset_id ++ " not found.")

/-! ## Observable job traces

A poller (`GET /analysis-jobs/{job_id}`) observes the committed job row, so
over the life of one dispatched job it reads some nondecreasing resampling
of: the `queued` row written at creation followed by the handler trace (the
job's committed state after each `db.commit()`).  Collapsing consecutive
stutters, the claimable invariant is that the status sequence is a prefix
of `queued, running, completed` or of `queued, running, failed`. -/

def isTerminal : JobStatus → Bool
  | JobStatus.completed => true
  | JobStatus.failed => true
  | _ => false

/-- Collapse consecutive repetitions. -/
def dedupConsec : List JobStatus → List JobStatus
  | [] => []
  | [a] => [a]
  | a :: b :: rest =>
    if a = b then dedupConsec (b :: rest) else a :: dedupConsec (b :: rest)

/-- The de-stuttered status sequence is a prefix of one of the two allowed
words. -/
def statusSeqOK (l : List JobStatus) : Prop :=
  (dedupConsec l).isPrefixOf
      [JobStatus.queued, JobStatus.running, JobStatus.completed] = true
  ∨ (dedupConsec l).isPrefixOf
      [JobStatus.queued, JobStatus.running, JobStatus.failed] = true

/-- The full temporal claim over one job's observations: forward-only
status, and `results` / `finished_at` set exactly at the terminal
observations (hence unset strictly before the first terminal one and never
unset afterward). -/
def traceOK (snaps : List AnalysisJob) : Prop :=
  statusSeqOK (JobStatus.queued :: snaps.map fun j => j.status)
  ∧ ∀ j ∈ snaps,
      j.results.isSome = isTerminal j.status
      ∧ j.finished_at.isSome = isTerminal j.status

/-- The cumulative effect of a list of issued label updates on one row:
each matching update overwrites `cluster_label`, everything else is kept.
`applyLabels` acts as this function mapped over the table (proved below). -/
def applyUpdates (ups : List (Nat × Int)) (r : CustomerRow) : CustomerRow :=
  ups.foldl (fun acc u =>
    if acc.id == u.1 then { acc with cluster_label := some u.2 } else acc) r

/-- `results["total_records_processed"]` (0 for payload shapes without it). -/
def JobResults.total : JobResults → Nat
  | .staticSuccess _ t _ => t
  | _ => 0

/-- `results["cluster_distribution"]` (empty for failure payloads). -/
def JobResults.distribution : JobResults → List (String × Nat)
  | .staticSuccess _ _ d => d
  | .dynamicSuccess _ _ _ d => d
  | .failure _ _ => []

/-! ## Concrete fixtures used by witnesses and counterexamples -/

def row1 : CustomerRow :=
  { id := 1, dataset_id := 1, original_customer_id := 101, gender := "Male",
    age := 30, annual_income := 40, spending_score := 60, cluster_label := none }

def row2 : CustomerRow :=
  { id := 2, dataset_id := 1, original_customer_id := 102, gender := "Female",
    age := 45, annual_income := 90, spending_score := 10, cluster_label := none }

def job1 : AnalysisJob :=
  { id := "job-1", dataset_id := 1, status := JobStatus.queued,
    results := none, created_at := 0, finished_at := none }

/-- Dataset 1 with two rows and one freshly queued job. -/
def store1 : Store := { datasets := [1], customers := [row1, row2], jobs := [job1] }

/-- Dataset 1 exists but has zero rows; one freshly queued job. -/
def storeEmpty : Store := { datasets := [1], customers := [], jobs := [job1] }

/-- An identity-like stored scaler (zero means, unit scales). -/
def sc1 : Scaler := ⟨Q.ofInt 0, Q.ofInt 1, Q.ofInt 0, Q.ofInt 1⟩

/-- A stored centroid model with two known clusters. -/
def km1 : KMeansModel := ⟨[(Q.ofInt 0, Q.ofInt 0), (Q.ofInt 5, Q.ofInt 5)]⟩

/-- An available registry with two known clusters. -/
def reg1 : Registry := ⟨some km1, some sc1⟩

/-- The process state after a failed artifact load
(`analysis_service.py` lines 20-23). -/
def regNone : Registry := ⟨none, none⟩

/-- A stored centroid model with five known clusters (Scenario C shape). -/
def km5 : KMeansModel := ⟨[(Q.ofInt 0, Q.ofInt 0), (Q.ofInt 100, Q.ofInt 0),
  (Q.ofInt 0, Q.ofInt 100), (Q.ofInt 20000, Q.ofInt 40), (Q.ofInt 50000, Q.ofInt 80)]⟩

/-- An available registry with five known clusters. -/
def reg5 : Registry := ⟨some km5, some sc1⟩

/-! ## Helper lemmas -/

theorem argminIdx_go_lt {α : Type} (d : α → Q) :
    ∀ (xs : List α) (i best : Nat) (bestD : Q), best < i →
      argminIdx.go d xs i best bestD < i + xs.length := by
  intro xs
  induction xs with
  | nil => intro i best bestD h; simp only [argminIdx.go, List.length_nil]; omega
  | cons y ys ih =>
    intro i best bestD h
    simp only [argminIdx.go, List.length_cons]
    split
    · have := ih (i + 1) i (d y) (Nat.lt_succ_self i)
      omega
    · have := ih (i + 1) best bestD (Nat.lt_succ_of_lt h)
      omega

/-- A prediction is always one of the known cluster ids. -/
theorem argminIdx_lt_length {α : Type} (d : α → Q) (l : List α) (h : l ≠ []) :
    argminIdx d l < l.length := by
  cases l with
  | nil => exact absurd rfl h
  | cons x xs =>
    simp only [argminIdx, List.length_cons]
    have := argminIdx_go_lt d xs 1 0 (d x) Nat.one_pos
    omega

theorem addCount_snd_sum (acc : List (Int × Nat)) (v : Int) :
    ((value_counts.addCount acc v).map fun p => p.2).sum
      = ((acc.map fun p => p.2).sum) + 1 := by
  induction acc with
  | nil => simp [value_counts.addCount]
  | cons kv rest ih =>
    obtain ⟨k, c⟩ := kv
    simp only [value_counts.addCount]
    split
    · simp [Nat.add_assoc, Nat.add_comm, Nat.add_left_comm]
    · simp only [List.map_cons, List.sum_cons, ih]
      omega

/-- The counts of `value_counts` sum to the number of labels counted. -/
theorem value_counts_sum (labels : List Int) :
    ((value_counts labels).map fun p => p.2).sum = labels.length := by
  suffices h : ∀ acc : List (Int × Nat),
      ((labels.foldl value_counts.addCount acc).map fun p => p.2).sum
        = (acc.map fun p => p.2).sum + labels.length by
    simpa [value_counts] using h []
  induction labels with
  | nil => intro acc; simp
  | cons v vs ih =>
    intro acc
    simp only [List.foldl_cons, List.length_cons, ih, addCount_snd_sum]
    omega

theorem sumCounts_stringify (l : List (Int × Nat)) :
    sumCounts (l.map fun p => (toString p.1, p.2)) = (l.map fun p => p.2).sum := by
  simp [sumCounts, List.map_map, Function.comp_def]

theorem findJob_id {store : Store} {jobId : String} {j : AnalysisJob}
    (h : findJob store jobId = some j) : j.id = jobId := by
  have := List.find?_some h
  simpa [beq_iff_eq] using this

theorem find?_put {jobs : List AnalysisJob} {jobId : String} {j : AnalysisJob}
    (j' : AnalysisJob)
    (h : jobs.find? (fun x => x.id == jobId) = some j) (hid : j'.id = jobId) :
    (jobs.map fun x => if x.id == j'.id then j' else x).find? (fun x => x.id == jobId)
      = some j' := by
  induction jobs with
  | nil => simp at h
  | cons a rest ih =>
    simp only [List.map_cons]
    by_cases ha : a.id = jobId
    · have h2 : (if a.id == j'.id then j' else a) = j' := by
        rw [if_pos]; simp [ha, hid]
      rw [h2]
      exact List.find?_cons_of_pos _ (by simp [hid])
    · have h2 : (if a.id == j'.id then j' else a) = a := by
        rw [if_neg]; simp [hid, ha]
      have h' : rest.find? (fun x => x.id == jobId) = some j := by
        rw [List.find?_cons_of_neg _ (by simp [ha])] at h; exact h
      rw [h2, List.find?_cons_of_neg _ (by simp [ha])]
      exact ih h'

/-- Updating a job row leaves the row found for its id equal to the update. -/
theorem findJob_putJob {store : Store} {jobId : String} {j : AnalysisJob}
    (j' : AnalysisJob)
    (h : findJob store jobId = some j) (hid : j'.id = jobId) :
    findJob (putJob store j') jobId = some j' :=
  find?_put j' h hid

theorem applyLabels_jobs (ups : List (Nat × Int)) :
    ∀ store : Store, (applyLabels store ups).jobs = store.jobs := by
  induction ups with
  | nil => intro store; rfl
  | cons u us ih =>
    intro store
    show (List.foldl applyLabel (applyLabel store u) us).jobs = store.jobs
    rw [show List.foldl applyLabel (applyLabel store u) us
        = applyLabels (applyLabel store u) us from rfl, ih]
    rfl

/-- The per-row update loop acts row-wise. -/
theorem applyLabels_customers (ups : List (Nat × Int)) :
    ∀ store : Store,
      (applyLabels store ups).customers = store.customers.map (applyUpdates ups) := by
  induction ups with
  | nil =>
    intro store
    show store.customers = store.customers.map (applyUpdates [])
    rw [show store.customers.map (applyUpdates [])
        = store.customers.map (fun r => r) from rfl, List.map_id']
  | cons u us ih =>
    intro store
    show (List.foldl applyLabel (applyLabel store u) us).customers = _
    rw [show List.foldl applyLabel (applyLabel store u) us
        = applyLabels (applyLabel store u) us from rfl, ih]
    simp only [applyLabel, List.map_map]
    rfl

theorem applyUpdates_id_eq (ups : List (Nat × Int)) :
    ∀ r : CustomerRow, (applyUpdates ups r).id = r.id := by
  induction ups with
  | nil => intro r; rfl
  | cons u us ih =>
    intro r
    rw [show applyUpdates (u :: us) r = applyUpdates us
        (if r.id == u.1 then { r with cluster_label := some u.2 } else r) from rfl, ih]
    split <;> rfl

theorem applyUpdates_dataset_eq (ups : List (Nat × Int)) :
    ∀ r : CustomerRow, (applyUpdates ups r).dataset_id = r.dataset_id := by
  induction ups with
  | nil => intro r; rfl
  | cons u us ih =>
    intro r
    rw [show applyUpdates (u :: us) r = applyUpdates us
        (if r.id == u.1 then { r with cluster_label := some u.2 } else r) from rfl, ih]
    split <;> rfl

/-- A row no update targets is left unchanged by the loop. -/
theorem applyUpdates_skip (ups : List (Nat × Int)) :
    ∀ r : CustomerRow, (∀ u ∈ ups, u.1 ≠ r.id) → applyUpdates ups r = r := by
  induction ups with
  | nil => intro r _; rfl
  | cons u us ih =>
    intro r h
    rw [show applyUpdates (u :: us) r = applyUpdates us
        (if r.id == u.1 then { r with cluster_label := some u.2 } else r) from rfl]
    have hne : (r.id == u.1) = false := by
      simp only [beq_eq_false_iff_ne, ne_eq]
      exact fun he => h u (List.mem_cons_self u us) he.symm
    rw [hne]
    simp only [Bool.false_eq_true, if_false]
    exact ih r fun u' hu' => h u' (List.mem_cons_of_mem _ hu')

/-- A row some update targets ends with its label overwritten by one of the
targeting updates. -/
theorem applyUpdates_hit (ups : List (Nat × Int)) :
    ∀ r : CustomerRow, (∃ v, (r.id, v) ∈ ups) →
      ∃ v, (applyUpdates ups r).cluster_label = some v ∧ (r.id, v) ∈ ups := by
  induction ups with
  | nil => rintro r ⟨v, hv⟩; simp at hv
  | cons u us ih =>
    rintro r ⟨v, hv⟩
    have hstep : applyUpdates (u :: us) r = applyUpdates us
        (if r.id == u.1 then { r with cluster_label := some u.2 } else r) := rfl
    by_cases hm : ∃ w, (r.id, w) ∈ us
    · set acc := (if r.id == u.1 then { r with cluster_label := some u.2 } else r) with hacc
      have hid : acc.id = r.id := by rw [hacc]; split <;> rfl
      obtain ⟨w, hw1, hw2⟩ := ih acc (by rw [hid]; exact hm)
      rw [hid] at hw2
      exact ⟨w, by rw [hstep]; exact hw1, List.mem_cons_of_mem _ hw2⟩
    · have hu : u = (r.id, v) := by
        rcases List.mem_cons.mp hv with h | h
        · exact h.symm
        · exact absurd ⟨v, h⟩ hm
      subst hu
      have hcond : (r.id == (r.id, v).1) = true := by simp
      rw [hstep, hcond]
      simp only [if_true]
      rw [applyUpdates_skip us _ ?hskip]
      case hskip =>
        intro u' hu' he
        exact hm ⟨u'.2, by rw [show ({ r with cluster_label := some v } : CustomerRow).id
          = r.id from rfl] at he; rw [← he]; exact hu'⟩
      exact ⟨v, rfl, List.mem_cons_self _ _⟩

/-- The static service never touches job rows. -/
theorem static_service_jobs (reg : Registry) (failAt : Option Nat) (s : Session)
    (dsId : Nat) :
    ((run_segmentation_analysis reg failAt s dsId).2).pending.jobs = s.pending.jobs := by
  simp only [run_segmentation_analysis]
  split
  · split
    · rfl
    · split
      · simp [applyLabels_jobs]
      · simp [commitS, applyLabels_jobs]
  · rfl

/-- The dynamic service never touches job rows. -/
theorem dynamic_service_jobs (s : Session) (dsId : Nat) (features : List String)
    (n_clusters : Int) :
    ((run_dynamic_segmentation_analysis s dsId features n_clusters).2).pending.jobs
      = s.pending.jobs := by
  simp only [run_dynamic_segmentation_analysis]
  split
  · rfl
  · split
    · rfl
    · simp [commitS, applyLabels_jobs]

theorem rowsOf_putJob (store : Store) (j : AnalysisJob) (dsId : Nat) :
    rowsOf (putJob store j) dsId = rowsOf store dsId := rfl

theorem findJob_putJob_of_jobs_eq {A B : Store} (h : A.jobs = B.jobs)
    (j' : AnalysisJob) (jobId : String) :
    findJob (putJob A j') jobId = findJob (putJob B j') jobId := by
  simp [findJob, putJob, h]

theorem find?_append_of_none {l1 l2 : List AnalysisJob} {p : AnalysisJob → Bool}
    (h : l1.find? p = none) : (l1 ++ l2).find? p = l2.find? p := by
  induction l1 with
  | nil => rfl
  | cons a rest ih =>
    by_cases ha : p a
    · rw [List.find?_cons_of_pos _ ha] at h; exact absurd h (by simp)
    · rw [List.find?_cons_of_neg _ ha] at h
      rw [List.cons_append, List.find?_cons_of_neg _ ha]
      exact ih h

theorem putJob_customers (A : Store) (j : AnalysisJob) :
    (putJob A j).customers = A.customers := rfl

theorem session_mk_pending (A X : Store) : (Session.mk A X).pending = X := rfl

theorem commitS_setJob_pending_customers (A B : Store) (j : AnalysisJob) :
    (commitS (setJob ⟨A, B⟩ j)).pending.customers = B.customers := rfl

/-- On any pipeline error, the static background handler ends with the
failed job record (error message captured, completion tick set) committed
on the same session, and the trace running → failed. -/
theorem static_handler_failed (reg : Registry) (failAt : Option Nat) (tick : Nat)
    (store : Store) (jobId : String) (dsId : Nat) (job : AnalysisJob) (e : AnalysisError)
    (h4 : findJob store jobId = some job)
    (herr : (run_segmentation_analysis reg failAt
        (commitS (setJob ⟨store, store⟩ { job with status := JobStatus.running })) dsId).1
      = .error e) :
    run_background_analysis reg failAt tick store jobId dsId
      = (putJob (run_segmentation_analysis reg failAt
            (commitS (setJob ⟨store, store⟩ { job with status := JobStatus.running })) dsId).2.pending
          { job with
            status := JobStatus.failed
            results := some (.failure e.message none)
            finished_at := some tick },
         [{ job with status := JobStatus.running },
          { job with
            status := JobStatus.failed
            results := some (.failure e.message none)
            finished_at := some tick }]) := by
  rcases hsvc : run_segmentation_analysis reg failAt
      (commitS (setJob ⟨store, store⟩ { job with status := JobStatus.running })) dsId
    with ⟨res, s2⟩
  rw [hsvc] at herr
  have hres : res = .error e := herr
  subst hres
  simp only [run_background_analysis, h4, hsvc]
  rfl

/-- On a successful pipeline run, the static background handler ends with
the completed job record and summary committed, and the trace
running → running → completed. -/
theorem static_handler_completed (reg : Registry) (failAt : Option Nat) (tick : Nat)
    (store : Store) (jobId : String) (dsId : Nat) (job : AnalysisJob)
    (annotated : List (CustomerRow × Nat))
    (h4 : findJob store jobId = some job)
    (hok : (run_segmentation_analysis reg failAt
        (commitS (setJob ⟨store, store⟩ { job with status := JobStatus.running })) dsId).1
      = .ok annotated) :
    run_background_analysis reg failAt tick store jobId dsId
      = (putJob (run_segmentation_analysis reg failAt
            (commitS (setJob ⟨store, store⟩ { job with status := JobStatus.running })) dsId).2.pending
          { job with
            status := JobStatus.completed
            results := some (analysisResultsOf dsId annotated)
            finished_at := some tick },
         [{ job with status := JobStatus.running }, { job with status := JobStatus.running },
          { job with
            status := JobStatus.completed
            results := some (analysisResultsOf dsId annotated)
            finished_at := some tick }]) := by
  rcases hsvc : run_segmentation_analysis reg failAt
      (commitS (setJob ⟨store, store⟩ { job with status := JobStatus.running })) dsId
    with ⟨res, s2⟩
  rw [hsvc] at hok
  have hres : res = .ok annotated := hok
  subst hres
  simp only [run_background_analysis, h4, hsvc]
  rfl

/-- On any pipeline error, the dynamic background handler ends with the
failed job record (error message and attempted feature list captured,
completion tick set) committed on the same session, and the trace
running → failed. -/
theorem dynamic_handler_failed (tick : Nat) (store : Store) (jobId : String)
    (dsId : Nat) (features : List String) (k : Int) (job : AnalysisJob) (e : AnalysisError)
    (h4 : findJob store jobId = some job)
    (herr : (run_dynamic_segmentation_analysis
        (commitS (setJob ⟨store, store⟩ { job with status := JobStatus.running })) dsId
        features k).1 = .error e) :
    run_dynamic_background_analysis tick store jobId dsId features k
      = (putJob (run_dynamic_segmentation_analysis
            (commitS (setJob ⟨store, store⟩ { job with status := JobStatus.running })) dsId
            features k).2.pending
          { job with
            status := JobStatus.failed
            results := some (.failure e.message (some features))
            finished_at := some tick },
         [{ job with status := JobStatus.running },
          { job with
            status := JobStatus.failed
            results := some (.failure e.message (some features))
            finished_at := some tick }]) := by
  rcases hsvc : run_dynamic_segmentation_analysis
      (commitS (setJob ⟨store, store⟩ { job with status := JobStatus.running })) dsId features k
    with ⟨res, s2⟩
  rw [hsvc] at herr
  have hres : res = .error e := herr
  subst hres
  simp only [run_dynamic_background_analysis, h4, hsvc]
  rfl

/-- A dynamic run with a non-positive cluster count on a nonempty dataset
fails in the background at the clustering step's parameter validation, and
the handler commits the corresponding failed job record. -/
theorem dynamic_handler_invalid_k (tick : Nat) (store : Store) (jobId : String)
    (dsId : Nat) (features : List String) (k : Int) (job : AnalysisJob)
    (h4 : findJob store jobId = some job)
    (hrows : rowsOf store dsId ≠ [])
    (hk : k < 1) :
    findJob (run_dynamic_background_analysis tick store jobId dsId features k).1 jobId
      = some { job with
               status := JobStatus.failed
               results := some (.failure
                 (AnalysisError.invalidNClusters k).message (some features))
               finished_at := some tick } := by
  have hid := findJob_id h4
  obtain ⟨r0, rest, hcons⟩ := List.exists_cons_of_ne_nil hrows
  have hrows1 : rowsOf (commitS (setJob ⟨store, store⟩
      { job with status := JobStatus.running })).committed dsId = rowsOf store dsId := rfl
  have hne : (rowsOf store dsId).isEmpty = false := by rw [hcons]; rfl
  have hsvc : run_dynamic_segmentation_analysis
      (commitS (setJob ⟨store, store⟩ { job with status := JobStatus.running })) dsId features k
      = (.error (.invalidNClusters k),
         commitS (setJob ⟨store, store⟩ { job with status := JobStatus.running })) := by
    simp only [run_dynamic_segmentation_analysis, hrows1, hne, Bool.false_eq_true, if_false,
      kmeansFitPredict, if_pos hk]
  have herr : (run_dynamic_segmentation_analysis
      (commitS (setJob ⟨store, store⟩ { job with status := JobStatus.running })) dsId
      features k).1 = .error (.invalidNClusters k) := by
    rw [hsvc]
  rw [dynamic_handler_failed tick store jobId dsId features k job _ h4 herr, hsvc]
  exact findJob_putJob _ (findJob_putJob _ h4 hid) hid

/-- Order-preserving characterisation of the dict-comprehension resolution
step: the recognised names, in request order, each translated by the
lookup. -/
theorem resolveFeatures_eq_filter_map (features : List String) :
    resolveFeatures features
      = (features.filter fun f => (lookupFeature f).isSome).map
          fun f => (lookupFeature f).getD f := by
  induction features with
  | nil => rfl
  | cons f fs ih =>
    simp only [resolveFeatures] at *
    cases hf : lookupFeature f with
    | none => simp [List.filterMap_cons, List.filter_cons, hf, ih]
    | some g => simp [List.filterMap_cons, List.filter_cons, hf, ih]

/-! ## Claims -/

/-- C7: dynamic attribute resolution translates each requested display-form
name through the fixed lookup (Gender, Age, Annual Income (k$),
Spending Score (1-100)), silently drops unrecognised names, and is
deterministic — resolving the same request twice yields storage-name lists
of identical cardinality and order, preserving the request order of the
recognised names. -/
theorem C7_resolution_deterministic (features : List String) :
    resolveFeatures features = resolveFeatures features
    ∧ (resolveFeatures features
        = (features.filter fun f => (lookupFeature f).isSome).map
            fun f => (lookupFeature f).getD f)
    ∧ (∀ pre post f, lookupFeature f = none →
        resolveFeatures (pre ++ f :: post) = resolveFeatures (pre ++ post))
    ∧ resolveFeatures ["Gender", "Age", "Annual Income (k$)", "Spending Score (1-100)"]
        = ["gender", "age", "annual_income", "spending_score"] := by
  refine ⟨rfl, resolveFeatures_eq_filter_map features, ?_, by decide⟩
  intro pre post f h
  simp [resolveFeatures, List.filterMap_append, List.filterMap_cons, h]

/-- Witness for C7 at a concrete request: an unrecognised name is dropped
without affecting the resolution of the rest. -/
theorem C7_witness :
    resolveFeatures (["Age"] ++ "NotARealAttribute" :: []) = resolveFeatures (["Age"] ++ [])
    ∧ resolveFeatures ["Age", "NotARealAttribute"] = ["age"] :=
  ⟨(C7_resolution_deterministic ["Age", "NotARealAttribute"]).2.2.1
      ["Age"] [] "NotARealAttribute" (by decide),
   by decide⟩

/-- C6: live prediction fails with the model-unavailable error when the
registry has no loaded artifact; otherwise it scales the single
(income, spending score) pair with the stored scaler, predicts with the
stored model, and returns a cluster id below the model's number of known
clusters. -/
theorem C6_live_prediction :
    (∀ (reg : Registry) (income score : Q),
        reg.kmeans_model = none ∨ reg.scaler = none →
        predict_single_customer reg income score
          = .error AnalysisError.modelUnavailablePrediction)
    ∧ (∀ (reg : Registry) (km : KMeansModel) (sc : Scaler) (income score : Q),
        reg.kmeans_model = some km → reg.scaler = some sc → km.centers ≠ [] →
        predict_single_customer reg income score
            = .ok (km.predict1 (sc.transform (income, score)))
        ∧ km.predict1 (sc.transform (income, score)) < km.centers.length) := by
  constructor
  · intro reg income score h
    cases hm : reg.kmeans_model with
    | none => simp [predict_single_customer, hm]
    | some km =>
      cases h with
      | inl h' => rw [hm] at h'; exact absurd h' (by simp)
      | inr h' => simp [predict_single_customer, hm, h']
  · intro reg km sc income score h1 h2 h3
    refine ⟨by simp [predict_single_customer, h1, h2], ?_⟩
    exact argminIdx_lt_length _ _ h3

/-- Witness for C6: Scenario C — income 50000, spending score 80 against a
model with five known clusters returns cluster id 4 < 5. -/
theorem C6_witness :
    (predict_single_customer reg5 (Q.ofInt 50000) (Q.ofInt 80)
        = .ok (km5.predict1 (sc1.transform (Q.ofInt 50000, Q.ofInt 80)))
      ∧ km5.predict1 (sc1.transform (Q.ofInt 50000, Q.ofInt 80)) < km5.centers.length)
    ∧ km5.predict1 (sc1.transform (Q.ofInt 50000, Q.ofInt 80)) = 4
    ∧ km5.centers.length = 5 :=
  ⟨C6_live_prediction.2 reg5 km5 sc1 (Q.ofInt 50000) (Q.ofInt 80) rfl rfl (by decide),
   by decide, by decide⟩

/-- C8: if the job record is absent from the store when a background
handler starts (static or dynamic), the handler aborts without writing any
job or customer state and returns normally. -/
theorem C8_missing_job_aborts (reg : Registry) (failAt : Option Nat) (tick : Nat)
    (store : Store) (jobId : String) (dsId : Nat) (features : List String) (k : Int)
    (h : findJob store jobId = none) :
    run_background_analysis reg failAt tick store jobId dsId = (store, [])
    ∧ run_dynamic_background_analysis tick store jobId dsId features k = (store, []) := by
  constructor
  · simp [run_background_analysis, h]
  · simp [run_dynamic_background_analysis, h]

/-- Witness for C8 at a concrete store holding no job with the given id. -/
theorem C8_witness :
    run_background_analysis regNone none 1 store1 "no-such-job" 1 = (store1, [])
    ∧ run_dynamic_background_analysis 1 store1 "no-such-job" 1 ["Age"] 5 = (store1, []) :=
  C8_missing_job_aborts regNone none 1 store1 "no-such-job" 1 ["Age"] 5 (by decide)

/-- Counterexample to C3: the static pipeline checks the Model Registry
BEFORE fetching customer records — on a zero-row dataset with no loaded
model the run fails with the model-unavailable error, not an EmptyDataset
error, and the job's failure message does not mention "no customer data",
contradicting both the claimed check order and its "in particular"
consequence. -/
theorem C3_counterexample :
    rowsOf storeEmpty 1 = []
    ∧ (run_segmentation_analysis regNone none ⟨storeEmpty, storeEmpty⟩ 1).1
        = .error AnalysisError.modelUnavailableAnalysis
    ∧ AnalysisError.modelUnavailableAnalysis ≠ AnalysisError.emptyDatasetStatic
    ∧ ((findJob (run_background_analysis regNone none 1 storeEmpty "job-1" 1).1 "job-1").map
        fun j => j.results)
      = some (some (.failure "ML models are not available. Cannot run analysis." none))
    ∧ mentions "no customer data" "ML models are not available. Cannot run analysis." = false := by
  decide

/-- C3 (amended): the static pipeline checks the Model Registry first and
fails with ModelUnavailable if it has no loaded artifact; only then does it
fetch every CustomerRecord and fail with EmptyDataset if none exist.  For a
dataset with zero rows and an available model, the job ends failed with an
error mentioning "no customer data". -/
theorem C3_amended_check_order :
    (∀ (reg : Registry) (failAt : Option Nat) (s : Session) (dsId : Nat),
        reg.kmeans_model = none ∨ reg.scaler = none →
        (run_segmentation_analysis reg failAt s dsId).1
          = .error AnalysisError.modelUnavailableAnalysis)
    ∧ (∀ (reg : Registry) (km : KMeansModel) (sc : Scaler) (failAt : Option Nat)
          (s : Session) (dsId : Nat),
        reg.kmeans_model = some km → reg.scaler = some sc →
        rowsOf s.committed dsId = [] →
        (run_segmentation_analysis reg failAt s dsId).1
          = .error AnalysisError.emptyDatasetStatic)
    ∧ (∀ (reg : Registry) (km : KMeansModel) (sc : Scaler) (failAt : Option Nat)
          (tick : Nat) (store : Store) (jobId : String) (dsId : Nat) (job : AnalysisJob),
        reg.kmeans_model = some km → reg.scaler = some sc →
        rowsOf store dsId = [] → findJob store jobId = some job →
        findJob (run_background_analysis reg failAt tick store jobId dsId).1 jobId
          = some { job with
                   status := JobStatus.failed
                   results := some (.failure AnalysisError.emptyDatasetStatic.message none)
                   finished_at := some tick })
    ∧ mentions "no customer data" AnalysisError.emptyDatasetStatic.message = true := by
  refine ⟨?_, ?_, ?_, by decide⟩
  · intro reg failAt s dsId h
    cases hm : reg.kmeans_model with
    | none => simp [run_segmentation_analysis, hm]
    | some km =>
      rcases h with h | h
      · rw [hm] at h; exact absurd h (by simp)
      · simp [run_segmentation_analysis, hm, h]
  · intro reg km sc failAt s dsId h1 h2 h3
    simp [run_segmentation_analysis, h1, h2, h3]
  · intro reg km sc failAt tick store jobId dsId job h1 h2 h3 h4
    have hid := findJob_id h4
    have hrows : rowsOf (commitS (setJob ⟨store, store⟩
        { job with status := JobStatus.running })).committed dsId = [] := h3
    have herr : (run_segmentation_analysis reg failAt
        (commitS (setJob ⟨store, store⟩ { job with status := JobStatus.running })) dsId).1
        = .error AnalysisError.emptyDatasetStatic := by
      simp [run_segmentation_analysis, h1, h2, hrows]
    rw [static_handler_failed reg failAt tick store jobId dsId job _ h4 herr]
    have hjobs : (run_segmentation_analysis reg failAt
        (commitS (setJob ⟨store, store⟩ { job with status := JobStatus.running })) dsId).2.pending.jobs
        = (putJob store { job with status := JobStatus.running }).jobs :=
      static_service_jobs reg failAt
        (commitS (setJob ⟨store, store⟩ { job with status := JobStatus.running })) dsId
    rw [findJob_putJob_of_jobs_eq hjobs]
    exact findJob_putJob _ (findJob_putJob _ h4 hid) hid

/-- Witness for the amended C3: both check orders and the empty-dataset job
outcome at concrete inputs. -/
theorem C3_amended_witness :
    (run_segmentation_analysis regNone none ⟨store1, store1⟩ 1).1
      = .error AnalysisError.modelUnavailableAnalysis
    ∧ (run_segmentation_analysis reg1 none ⟨storeEmpty, storeEmpty⟩ 1).1
      = .error AnalysisError.emptyDatasetStatic
    ∧ findJob (run_background_analysis reg1 none 5 storeEmpty "job-1" 1).1 "job-1"
      = some { job1 with
               status := JobStatus.failed
               results := some (.failure AnalysisError.emptyDatasetStatic.message none)
               finished_at := some 5 } :=
  ⟨C3_amended_check_order.1 regNone none ⟨store1, store1⟩ 1 (Or.inl rfl),
   C3_amended_check_order.2.1 reg1 km1 sc1 none ⟨storeEmpty, storeEmpty⟩ 1 rfl rfl (by decide),
   C3_amended_check_order.2.2.1 reg1 km1 sc1 none 5 storeEmpty "job-1" 1 job1
     rfl rfl (by decide) (by decide)⟩

/-- C4: any error raised inside a dispatched pipeline is caught at the
background boundary (the handler returns a final state instead of
propagating) and converted into a failed job whose results record the
error's message under the error key — and, for dynamic runs, the attempted
attribute list — with the completion tick set; the handler invokes the
pipeline exactly once, with no retry. -/
theorem C4_error_conversion :
    (∀ (reg : Registry) (failAt : Option Nat) (tick : Nat) (store : Store)
        (jobId : String) (dsId : Nat) (job : AnalysisJob) (e : AnalysisError),
      findJob store jobId = some job →
      (run_segmentation_analysis reg failAt
          (commitS (setJob ⟨store, store⟩ { job with status := JobStatus.running })) dsId).1
        = .error e →
      findJob (run_background_analysis reg failAt tick store jobId dsId).1 jobId
        = some { job with
                 status := JobStatus.failed
                 results := some (.failure e.message none)
                 finished_at := some tick })
    ∧ (∀ (tick : Nat) (store : Store) (jobId : String) (dsId : Nat)
        (features : List String) (k : Int) (job : AnalysisJob) (e : AnalysisError),
      findJob store jobId = some job →
      (run_dynamic_segmentation_analysis
          (commitS (setJob ⟨store, store⟩ { job with status := JobStatus.running })) dsId
          features k).1 = .error e →
      findJob (run_dynamic_background_analysis tick store jobId dsId features k).1 jobId
        = some { job with
                 status := JobStatus.failed
                 results := some (.failure e.message (some features))
                 finished_at := some tick }) := by
  constructor
  · intro reg failAt tick store jobId dsId job e h4 herr
    have hid := findJob_id h4
    rw [static_handler_failed reg failAt tick store jobId dsId job e h4 herr]
    have hjobs : (run_segmentation_analysis reg failAt
        (commitS (setJob ⟨store, store⟩ { job with status := JobStatus.running })) dsId).2.pending.jobs
        = (putJob store { job with status := JobStatus.running }).jobs :=
      static_service_jobs reg failAt
        (commitS (setJob ⟨store, store⟩ { job with status := JobStatus.running })) dsId
    rw [findJob_putJob_of_jobs_eq hjobs]
    exact findJob_putJob _ (findJob_putJob _ h4 hid) hid
  · intro tick store jobId dsId features k job e h4 herr
    have hid := findJob_id h4
    rw [dynamic_handler_failed tick store jobId dsId features k job e h4 herr]
    have hjobs : (run_dynamic_segmentation_analysis
        (commitS (setJob ⟨store, store⟩ { job with status := JobStatus.running })) dsId
        features k).2.pending.jobs
        = (putJob store { job with status := JobStatus.running }).jobs :=
      dynamic_service_jobs
        (commitS (setJob ⟨store, store⟩ { job with status := JobStatus.running })) dsId features k
    rw [findJob_putJob_of_jobs_eq hjobs]
    exact findJob_putJob _ (findJob_putJob _ h4 hid) hid

/-- Witness for C4: an empty-dataset error in a static run and an
unresolved-feature error in a dynamic run are each converted into a failed
job record with the message captured. -/
theorem C4_witness :
    findJob (run_background_analysis reg1 none 9 storeEmpty "job-1" 1).1 "job-1"
      = some { job1 with
               status := JobStatus.failed
               results := some (.failure AnalysisError.emptyDatasetStatic.message none)
               finished_at := some 9 }
    ∧ findJob (run_dynamic_background_analysis 9 store1 "job-1" 1 ["NotARealAttribute"] 5).1 "job-1"
      = some { job1 with
               status := JobStatus.failed
               results := some (.failure (AnalysisError.zeroFeatures 2).message
                 (some ["NotARealAttribute"]))
               finished_at := some 9 } :=
  ⟨C4_error_conversion.1 reg1 none 9 storeEmpty "job-1" 1 job1
     AnalysisError.emptyDatasetStatic (by decide) (by decide),
   C4_error_conversion.2 9 store1 "job-1" 1 ["NotARealAttribute"] 5 job1
     (AnalysisError.zeroFeatures 2) (by decide) (by decide)⟩

/-- Counterexample to C2: the repository defines no FeatureMappingError and
performs no pre-clustering check.  When every requested attribute fails to
resolve, the zero-width feature matrix is handed to the clustering step,
whose own array validation produces the failure — the run's error is
exactly the value `kmeansFitPredict` rejects the empty matrix with, and the
job's failure message is that clustering-step message. -/
theorem C2_counterexample :
    resolveFeatures ["NotARealAttribute"] = []
    ∧ (run_dynamic_segmentation_analysis ⟨store1, store1⟩ 1 ["NotARealAttribute"] 5).1
        = .error (AnalysisError.zeroFeatures 2)
    ∧ kmeansFitPredict 5 (buildMatrix (rowsOf store1 1) [] [])
        = .error (AnalysisError.zeroFeatures 2)
    ∧ (run_dynamic_background_analysis 7 store1 "job-1" 1 ["NotARealAttribute"] 5).1.customers
        = store1.customers
    ∧ ((findJob (run_dynamic_background_analysis 7 store1 "job-1" 1 ["NotARealAttribute"] 5).1
          "job-1").map fun j => j.results)
        = some (some (.failure (AnalysisError.zeroFeatures 2).message
            (some ["NotARealAttribute"]))) := by
  decide

/-- C2 (amended): for a dynamic run on a nonempty dataset in which every
requested attribute fails to resolve, the pipeline reaches the clustering
step with a zero-width feature matrix and fails with the clustering step's
empty-matrix error; the job ends failed with that error's message (and the
attempted attribute list), and no customer row is mutated. -/
theorem C2_amended_empty_features (store : Store) (jobId : String) (dsId : Nat)
    (job : AnalysisJob) (features : List String) (k : Int) (tick : Nat)
    (h4 : findJob store jobId = some job)
    (hrows : rowsOf store dsId ≠ [])
    (hres : resolveFeatures features = [])
    (hk : 1 ≤ k) :
    findJob (run_dynamic_background_analysis tick store jobId dsId features k).1 jobId
      = some { job with
               status := JobStatus.failed
               results := some (.failure
                 (AnalysisError.zeroFeatures (rowsOf store dsId).length).message (some features))
               finished_at := some tick }
    ∧ (run_dynamic_background_analysis tick store jobId dsId features k).1.customers
      = store.customers := by
  have hid := findJob_id h4
  obtain ⟨r0, rest, hcons⟩ := List.exists_cons_of_ne_nil hrows
  have hrows1 : rowsOf (commitS (setJob ⟨store, store⟩
      { job with status := JobStatus.running })).committed dsId = rowsOf store dsId := rfl
  have hmat : buildMatrix (rowsOf store dsId) [] []
      = (rowsOf store dsId).map (fun _ => []) := by
    simp [buildMatrix]
  have hkm : kmeansFitPredict k (buildMatrix (rowsOf store dsId) [] [])
      = .error (.zeroFeatures (rowsOf store dsId).length) := by
    rw [hmat, hcons]
    simp [kmeansFitPredict, show ¬ (k < 1) from by omega]
  have hne : (rowsOf store dsId).isEmpty = false := by rw [hcons]; rfl
  have hsvc : run_dynamic_segmentation_analysis
      (commitS (setJob ⟨store, store⟩ { job with status := JobStatus.running })) dsId features k
      = (.error (.zeroFeatures (rowsOf store dsId).length),
         commitS (setJob ⟨store, store⟩ { job with status := JobStatus.running })) := by
    simp only [run_dynamic_segmentation_analysis, hrows1, hne, Bool.false_eq_true, if_false,
      hres, List.filter_nil, hkm]
  have herr : (run_dynamic_segmentation_analysis
      (commitS (setJob ⟨store, store⟩ { job with status := JobStatus.running })) dsId
      features k).1 = .error (.zeroFeatures (rowsOf store dsId).length) := by
    rw [hsvc]
  rw [dynamic_handler_failed tick store jobId dsId features k job _ h4 herr, hsvc]
  exact ⟨findJob_putJob _ (findJob_putJob _ h4 hid) hid, rfl⟩

/-- Witness for the amended C2 at a concrete dataset and request. -/
theorem C2_amended_witness :
    findJob (run_dynamic_background_analysis 7 store1 "job-1" 1 ["NotARealAttribute"] 5).1 "job-1"
      = some { job1 with
               status := JobStatus.failed
               results := some (.failure
                 (AnalysisError.zeroFeatures (rowsOf store1 1).length).message
                 (some ["NotARealAttribute"]))
               finished_at := some 7 }
    ∧ (run_dynamic_background_analysis 7 store1 "job-1" 1 ["NotARealAttribute"] 5).1.customers
      = store1.customers :=
  C2_amended_empty_features store1 "job-1" 1 job1 ["NotARealAttribute"] 5 7
    (by decide) (by decide) (by decide) (by decide)

/-- C9: creating a dynamic analysis job validates nothing about the cluster
count — any integer (zero and negatives included) is accepted and a queued
job with unset results is returned synchronously; a non-positive cluster
count surfaces only later, as a failed job produced in the background when
the clustering step's parameter validation rejects it. -/
theorem C9_no_nclusters_validation (store : Store) (req : DynamicAnalysisRequest)
    (newId : String) (now tick : Nat)
    (hds : store.datasets.contains req.dataset_id = true)
    (hfresh : findJob store newId = none) :
    ∃ job store2,
      run_dynamic_analysis_job store req newId now = .ok (job, store2)
      ∧ job.status = JobStatus.queued ∧ job.results = none ∧ job.finished_at = none
      ∧ (req.n_clusters ≤ 0 → rowsOf store req.dataset_id ≠ [] →
          findJob (run_dynamic_background_analysis tick store2 newId req.dataset_id
              req.features req.n_clusters).1 newId
            = some { job with
                     status := JobStatus.failed
                     results := some (.failure
                       (AnalysisError.invalidNClusters req.n_clusters).message
                       (some req.features))
                     finished_at := some tick }) := by
  refine ⟨{ id := newId, dataset_id := req.dataset_id, status := JobStatus.queued, results := none, created_at := now, finished_at := none },
          { store with jobs := store.jobs ++ [{ id := newId, dataset_id := req.dataset_id, status := JobStatus.queued, results := none, created_at := now, finished_at := none }] },
          ?_, rfl, rfl, rfl, ?_⟩
  · unfold run_dynamic_analysis_job
    rw [if_pos hds]
  · intro hk hrows
    have h4 : findJob { store with jobs := store.jobs ++ [{ id := newId, dataset_id := req.dataset_id, status := JobStatus.queued, results := none, created_at := now, finished_at := none }] } newId
        = some { id := newId, dataset_id := req.dataset_id, status := JobStatus.queued, results := none, created_at := now, finished_at := none } := by
      show (store.jobs ++ _).find? (fun j => j.id == newId) = _
      rw [find?_append_of_none hfresh]
      simp [List.find?]
    exact dynamic_handler_invalid_k tick _ newId req.dataset_id req.features
      req.n_clusters _ h4 hrows (by omega)

/-- Witness for C9: a request with cluster count 0 against a two-row
dataset is accepted synchronously as a queued job; the rejection surfaces
only as the later failed job. -/
theorem C9_witness :
    ∃ job store2,
      run_dynamic_analysis_job store1 ⟨1, ["Age"], 0⟩ "dyn-1" 3 = .ok (job, store2)
      ∧ job.status = JobStatus.queued ∧ job.results = none ∧ job.finished_at = none
      ∧ ((0 : Int) ≤ 0 → rowsOf store1 1 ≠ [] →
          findJob (run_dynamic_background_analysis 7 store2 "dyn-1" 1 ["Age"] 0).1 "dyn-1"
            = some { job with
                     status := JobStatus.failed
                     results := some (.failure
                       (AnalysisError.invalidNClusters 0).message (some ["Age"]))
                     finished_at := some 7 }) :=
  C9_no_nclusters_validation store1 ⟨1, ["Age"], 0⟩ "dyn-1" 3 7 (by decide) (by decide)

/-- C5: for a dataset with at least one row and an available model, a
static job ends completed; every dataset row is assigned exactly one
cluster label, each one of the model's known cluster ids;
total_records_processed equals the dataset's row count; and the
cluster_distribution counts sum to that row count. -/
theorem C5_static_success (reg : Registry) (km : KMeansModel) (sc : Scaler)
    (tick : Nat) (store : Store) (jobId : String) (dsId : Nat) (job : AnalysisJob)
    (hkm : reg.kmeans_model = some km) (hsc : reg.scaler = some sc)
    (hcnt : km.centers ≠ [])
    (h4 : findJob store jobId = some job)
    (hrows : rowsOf store dsId ≠ []) :
    findJob (run_background_analysis reg none tick store jobId dsId).1 jobId
      = some { job with
               status := JobStatus.completed
               results := some (analysisResultsOf dsId
                 (staticAnnotated km sc (rowsOf store dsId)))
               finished_at := some tick }
    ∧ (analysisResultsOf dsId (staticAnnotated km sc (rowsOf store dsId))).total
        = (rowsOf store dsId).length
    ∧ sumCounts (analysisResultsOf dsId (staticAnnotated km sc (rowsOf store dsId))).distribution
        = (rowsOf store dsId).length
    ∧ (∀ rl ∈ staticAnnotated km sc (rowsOf store dsId), rl.2 < km.centers.length)
    ∧ (∀ r ∈ (run_background_analysis reg none tick store jobId dsId).1.customers,
        r.dataset_id = dsId →
        ∃ v : Int, r.cluster_label = some v ∧ 0 ≤ v ∧ v < (km.centers.length : Int)) := by
  have hid := findJob_id h4
  have hrows1 : rowsOf (commitS (setJob ⟨store, store⟩
      { job with status := JobStatus.running })).committed dsId = rowsOf store dsId := rfl
  obtain ⟨r0, rest, hcons⟩ := List.exists_cons_of_ne_nil hrows
  have hne : (rowsOf store dsId).isEmpty = false := by rw [hcons]; rfl
  have hsvc : run_segmentation_analysis reg none
      (commitS (setJob ⟨store, store⟩ { job with status := JobStatus.running })) dsId
      = (.ok (staticAnnotated km sc (rowsOf store dsId)),
         commitS { commitS (setJob ⟨store, store⟩ { job with status := JobStatus.running }) with
           pending := applyLabels
             (commitS (setJob ⟨store, store⟩ { job with status := JobStatus.running })).pending
             ((staticAnnotated km sc (rowsOf store dsId)).map
               fun rl => (rl.1.id, (rl.2 : Int))) }) := by
    simp only [run_segmentation_analysis, hkm, hsc, hrows1, hne, Bool.false_eq_true,
      if_false, updatesIssued]
  have hok : (run_segmentation_analysis reg none
      (commitS (setJob ⟨store, store⟩ { job with status := JobStatus.running })) dsId).1
      = .ok (staticAnnotated km sc (rowsOf store dsId)) := by rw [hsvc]
  have hupbound : ∀ p ∈ (staticAnnotated km sc (rowsOf store dsId)).map
      (fun rl => (rl.1.id, (rl.2 : Int))), 0 ≤ p.2 ∧ p.2 < (km.centers.length : Int) := by
    intro p hp
    obtain ⟨rl, hrl, rfl⟩ := List.mem_map.mp hp
    obtain ⟨r1, hr1, rfl⟩ := List.mem_map.mp hrl
    dsimp only
    refine ⟨Int.ofNat_nonneg _, ?_⟩
    exact_mod_cast argminIdx_lt_length _ _ hcnt
  rw [static_handler_completed reg none tick store jobId dsId job _ h4 hok, hsvc]
  refine ⟨?_, ?_, ?_, ?_, ?_⟩
  · have hjobs : (applyLabels
        (commitS (setJob ⟨store, store⟩ { job with status := JobStatus.running })).pending
        ((staticAnnotated km sc (rowsOf store dsId)).map fun rl => (rl.1.id, (rl.2 : Int)))).jobs
        = (putJob store { job with status := JobStatus.running }).jobs :=
      applyLabels_jobs _ _
    rw [show (commitS { commitS (setJob ⟨store, store⟩ { job with status := JobStatus.running }) with
        pending := applyLabels
          (commitS (setJob ⟨store, store⟩ { job with status := JobStatus.running })).pending
          ((staticAnnotated km sc (rowsOf store dsId)).map
            fun rl => (rl.1.id, (rl.2 : Int))) }).pending
      = applyLabels
          (commitS (setJob ⟨store, store⟩ { job with status := JobStatus.running })).pending
          ((staticAnnotated km sc (rowsOf store dsId)).map
            fun rl => (rl.1.id, (rl.2 : Int))) from rfl]
    rw [findJob_putJob_of_jobs_eq hjobs]
    exact findJob_putJob _ (findJob_putJob _ h4 hid) hid
  · simp [analysisResultsOf, JobResults.total, staticAnnotated]
  · rw [show (analysisResultsOf dsId (staticAnnotated km sc (rowsOf store dsId))).distribution
      = (value_counts ((staticAnnotated km sc (rowsOf store dsId)).map
          fun rl => (rl.2 : Int))).map (fun p => (toString p.1, p.2)) from rfl]
    rw [sumCounts_stringify, value_counts_sum]
    simp [staticAnnotated]
  · intro rl hrl
    obtain ⟨r1, hr1, rfl⟩ := List.mem_map.mp hrl
    exact argminIdx_lt_length _ _ hcnt
  · intro r hr hds'
    rw [show (putJob (commitS { commitS (setJob ⟨store, store⟩
          { job with status := JobStatus.running }) with
        pending := applyLabels
          (commitS (setJob ⟨store, store⟩ { job with status := JobStatus.running })).pending
          ((staticAnnotated km sc (rowsOf store dsId)).map
            fun rl => (rl.1.id, (rl.2 : Int))) }).pending
        { job with
          status := JobStatus.completed
          results := some (analysisResultsOf dsId (staticAnnotated km sc (rowsOf store dsId)))
          finished_at := some tick }).customers
      = (applyLabels
          (commitS (setJob ⟨store, store⟩ { job with status := JobStatus.running })).pending
          ((staticAnnotated km sc (rowsOf store dsId)).map
            fun rl => (rl.1.id, (rl.2 : Int)))).customers from rfl] at hr
    rw [applyLabels_customers] at hr
    obtain ⟨r0', hr0', rfl⟩ := List.mem_map.mp hr
    have hds0 : r0'.dataset_id = dsId := by
      rw [applyUpdates_dataset_eq] at hds'; exact hds'
    have hmem0 : r0' ∈ rowsOf store dsId := by
      simp only [rowsOf, List.mem_filter]
      exact ⟨hr0', by simp [hds0]⟩
    have hup : (r0'.id, ((km.predict1 (sc.transform
        (Q.ofInt r0'.annual_income, Q.ofInt r0'.spending_score)) : Nat) : Int))
        ∈ (staticAnnotated km sc (rowsOf store dsId)).map
          (fun rl => (rl.1.id, (rl.2 : Int))) := by
      exact List.mem_map_of_mem _ (List.mem_map_of_mem _ hmem0)
    obtain ⟨v, hv1, hv2⟩ := applyUpdates_hit _ r0' ⟨_, hup⟩
    exact ⟨v, hv1, (hupbound _ hv2).1, (hupbound _ hv2).2⟩

/-- Witness for C5: two rows, two known clusters — the job completes, both
rows are labelled with a known cluster id, and total and distribution both
account for the two rows. -/
theorem C5_witness :
    findJob (run_background_analysis reg1 none 7 store1 "job-1" 1).1 "job-1"
      = some { job1 with
               status := JobStatus.completed
               results := some (analysisResultsOf 1 (staticAnnotated km1 sc1 (rowsOf store1 1)))
               finished_at := some 7 }
    ∧ (analysisResultsOf 1 (staticAnnotated km1 sc1 (rowsOf store1 1))).total
        = (rowsOf store1 1).length
    ∧ sumCounts (analysisResultsOf 1 (staticAnnotated km1 sc1 (rowsOf store1 1))).distribution
        = (rowsOf store1 1).length
    ∧ (∀ rl ∈ staticAnnotated km1 sc1 (rowsOf store1 1), rl.2 < km1.centers.length)
    ∧ (∀ r ∈ (run_background_analysis reg1 none 7 store1 "job-1" 1).1.customers,
        r.dataset_id = 1 →
        ∃ v : Int, r.cluster_label = some v ∧ 0 ≤ v ∧ v < (km1.centers.length : Int)) :=
  C5_static_success reg1 km1 sc1 7 store1 "job-1" 1 job1 rfl rfl
    (by decide) (by decide) (by decide)

/-- C10: if the static pipeline's per-row write-back loop raises after i
updates have been issued (modelled by the injected storage failure at index
0 < i < row count), the failure handler commits the failed job on the same
session without rolling back, thereby also persisting the partial
cluster_label updates already issued — the dataset's rows are not left
unchanged. -/
theorem C10_partial_commit_on_failure (reg : Registry) (km : KMeansModel) (sc : Scaler)
    (tick : Nat) (store : Store) (jobId : String) (dsId : Nat) (job : AnalysisJob) (i : Nat)
    (hkm : reg.kmeans_model = some km) (hsc : reg.scaler = some sc)
    (h4 : findJob store jobId = some job)
    (hi0 : 0 < i) (hilen : i < (rowsOf store dsId).length) :
    findJob (run_background_analysis reg (some i) tick store jobId dsId).1 jobId
      = some { job with
               status := JobStatus.failed
               results := some (.failure AnalysisError.persistenceFailure.message none)
               finished_at := some tick }
    ∧ (run_background_analysis reg (some i) tick store jobId dsId).1.customers
      = store.customers.map (applyUpdates
          (((staticAnnotated km sc (rowsOf store dsId)).map
            fun rl => (rl.1.id, (rl.2 : Int))).take i))
    ∧ ∃ r ∈ (run_background_analysis reg (some i) tick store jobId dsId).1.customers,
        r.dataset_id = dsId ∧ r.cluster_label.isSome = true := by
  have hid := findJob_id h4
  have hrows1 : rowsOf (commitS (setJob ⟨store, store⟩
      { job with status := JobStatus.running })).committed dsId = rowsOf store dsId := rfl
  have hne' : rowsOf store dsId ≠ [] := by
    intro h; rw [h] at hilen; simp at hilen
  obtain ⟨r0, rest, hcons⟩ := List.exists_cons_of_ne_nil hne'
  have hne : (rowsOf store dsId).isEmpty = false := by rw [hcons]; rfl
  have hlen : i < ((staticAnnotated km sc (rowsOf store dsId)).map
      (fun rl => (rl.1.id, (rl.2 : Int)))).length := by
    simpa [staticAnnotated] using hilen
  have hsvc : run_segmentation_analysis reg (some i)
      (commitS (setJob ⟨store, store⟩ { job with status := JobStatus.running })) dsId
      = (.error AnalysisError.persistenceFailure,
         { commitS (setJob ⟨store, store⟩ { job with status := JobStatus.running }) with
           pending := applyLabels
             (commitS (setJob ⟨store, store⟩ { job with status := JobStatus.running })).pending
             (((staticAnnotated km sc (rowsOf store dsId)).map
               fun rl => (rl.1.id, (rl.2 : Int))).take i) }) := by
    simp only [run_segmentation_analysis, hkm, hsc, hrows1, hne, Bool.false_eq_true,
      if_false, updatesIssued, if_pos hlen]
  have herr : (run_segmentation_analysis reg (some i)
      (commitS (setJob ⟨store, store⟩ { job with status := JobStatus.running })) dsId).1
      = .error AnalysisError.persistenceFailure := by rw [hsvc]
  rw [static_handler_failed reg (some i) tick store jobId dsId job _ h4 herr, hsvc]
  have hcust : (putJob ({ commitS (setJob ⟨store, store⟩
        { job with status := JobStatus.running }) with
      pending := applyLabels
        (commitS (setJob ⟨store, store⟩ { job with status := JobStatus.running })).pending
        (((staticAnnotated km sc (rowsOf store dsId)).map
          fun rl : CustomerRow × Nat => (rl.1.id, (rl.2 : Int))).take i) }).pending
      { job with
        status := JobStatus.failed
        results := some (.failure AnalysisError.persistenceFailure.message none)
        finished_at := some tick }).customers
      = store.customers.map (applyUpdates
          (((staticAnnotated km sc (rowsOf store dsId)).map
            fun rl : CustomerRow × Nat => (rl.1.id, (rl.2 : Int))).take i)) := by
    rw [putJob_customers, session_mk_pending, applyLabels_customers,
      commitS_setJob_pending_customers]
  refine ⟨?_, hcust, ?_⟩
  · have hjobs : (applyLabels
        (commitS (setJob ⟨store, store⟩ { job with status := JobStatus.running })).pending
        (((staticAnnotated km sc (rowsOf store dsId)).map
          fun rl : CustomerRow × Nat => (rl.1.id, (rl.2 : Int))).take i)).jobs
        = (putJob store { job with status := JobStatus.running }).jobs :=
      applyLabels_jobs _ _
    rw [session_mk_pending, findJob_putJob_of_jobs_eq hjobs]
    exact findJob_putJob _ (findJob_putJob _ h4 hid) hid
  · obtain ⟨i', rfl⟩ : ∃ i', i = i' + 1 := ⟨i - 1, by omega⟩
    have hr0mem : r0 ∈ store.customers := by
      have h1 : r0 ∈ rowsOf store dsId := by rw [hcons]; exact List.mem_cons_self _ _
      exact List.mem_of_mem_filter h1
    have hr0ds : r0.dataset_id = dsId := by
      have h1 : r0 ∈ rowsOf store dsId := by rw [hcons]; exact List.mem_cons_self _ _
      have h2 := (List.mem_filter.mp h1).2
      simpa using h2
    have hupmem : (r0.id, ((km.predict1 (sc.transform
        (Q.ofInt r0.annual_income, Q.ofInt r0.spending_score)) : Nat) : Int))
        ∈ (((staticAnnotated km sc (rowsOf store dsId)).map
          fun rl : CustomerRow × Nat => (rl.1.id, (rl.2 : Int))).take (i' + 1)) := by
      rw [hcons]
      simp only [staticAnnotated, List.map_cons, List.take_succ_cons]
      exact List.mem_cons_self _ _
    obtain ⟨v, hv1, hv2⟩ := applyUpdates_hit _ r0 ⟨_, hupmem⟩
    refine ⟨applyUpdates (((staticAnnotated km sc (rowsOf store dsId)).map
        fun rl : CustomerRow × Nat => (rl.1.id, (rl.2 : Int))).take (i' + 1)) r0, ?_, ?_, ?_⟩
    · rw [hcust]
      exact List.mem_map_of_mem _ hr0mem
    · rw [applyUpdates_dataset_eq]; exact hr0ds
    · rw [hv1]; rfl

/-- Witness for C10: a storage failure after the first of two row updates
leaves the first row labelled while the job ends failed. -/
theorem C10_witness :
    findJob (run_background_analysis reg1 (some 1) 7 store1 "job-1" 1).1 "job-1"
      = some { job1 with
               status := JobStatus.failed
               results := some (.failure AnalysisError.persistenceFailure.message none)
               finished_at := some 7 }
    ∧ (run_background_analysis reg1 (some 1) 7 store1 "job-1" 1).1.customers
      = store1.customers.map (applyUpdates
          (((staticAnnotated km1 sc1 (rowsOf store1 1)).map
            fun rl => (rl.1.id, (rl.2 : Int))).take 1))
    ∧ ∃ r ∈ (run_background_analysis reg1 (some 1) 7 store1 "job-1" 1).1.customers,
        r.dataset_id = 1 ∧ r.cluster_label.isSome = true :=
  C10_partial_commit_on_failure reg1 km1 sc1 7 store1 "job-1" 1 job1 1 rfl rfl
    (by decide) (by decide) (by decide)

/-- C1: for every dispatched job (static or dynamic) whose record was
created queued with unset results and completion timestamp, the committed
job states observed over time are forward-only: de-stuttered, the status
sequence is a prefix of queued, running, completed or of
queued, running, failed — never re-entering queued or running once left —
and results and the completion timestamp are unset at every observation
before the first terminal one and set (never unset again) at every
terminal one. -/
theorem C1_status_trace (reg : Registry) (failAt : Option Nat) (tick : Nat)
    (store : Store) (jobId : String) (dsId : Nat) (features : List String) (k : Int)
    (hfresh : ∀ j, findJob store jobId = some j →
      j.status = JobStatus.queued ∧ j.results = none ∧ j.finished_at = none) :
    traceOK (run_background_analysis reg failAt tick store jobId dsId).2
    ∧ traceOK (run_dynamic_background_analysis tick store jobId dsId features k).2 := by
  constructor
  · cases hj : findJob store jobId with
    | none =>
      simp only [run_background_analysis, hj]
      exact ⟨Or.inl (by decide), fun j h => absurd h (by simp)⟩
    | some job =>
      obtain ⟨hq, hr, hf⟩ := hfresh job hj
      rcases hsvc : run_segmentation_analysis reg failAt
          (commitS (setJob ⟨store, store⟩ { job with status := JobStatus.running })) dsId
        with ⟨res, s2⟩
      cases res with
      | ok annotated =>
        rw [static_handler_completed reg failAt tick store jobId dsId job annotated hj
          (by rw [hsvc])]
        constructor
        · left
          show (dedupConsec [JobStatus.queued, JobStatus.running, JobStatus.running,
              JobStatus.completed]).isPrefixOf
              [JobStatus.queued, JobStatus.running, JobStatus.completed] = true
          decide
        · intro j hj'
          simp only [List.mem_cons, List.not_mem_nil, or_false] at hj'
          rcases hj' with rfl | rfl | rfl <;> simp [isTerminal, hr, hf]
      | error e =>
        rw [static_handler_failed reg failAt tick store jobId dsId job e hj
          (by rw [hsvc])]
        constructor
        · right
          show (dedupConsec [JobStatus.queued, JobStatus.running,
              JobStatus.failed]).isPrefixOf
              [JobStatus.queued, JobStatus.running, JobStatus.failed] = true
          decide
        · intro j hj'
          simp only [List.mem_cons, List.not_mem_nil, or_false] at hj'
          rcases hj' with rfl | rfl <;> simp [isTerminal, hr, hf]
  · cases hj : findJob store jobId with
    | none =>
      simp only [run_dynamic_background_analysis, hj]
      exact ⟨Or.inl (by decide), fun j h => absurd h (by simp)⟩
    | some job =>
      obtain ⟨hq, hr, hf⟩ := hfresh job hj
      rcases hsvc : run_dynamic_segmentation_analysis
          (commitS (setJob ⟨store, store⟩ { job with status := JobStatus.running })) dsId
          features k
        with ⟨res, s2⟩
      cases res with
      | ok out =>
        have hout : (run_dynamic_segmentation_analysis
            (commitS (setJob ⟨store, store⟩ { job with status := JobStatus.running })) dsId
            features k) = (.ok out, s2) := hsvc
        simp only [run_dynamic_background_analysis, hj, hout]
        constructor
        · left
          show (dedupConsec [JobStatus.queued, JobStatus.running, JobStatus.running,
              JobStatus.completed]).isPrefixOf
              [JobStatus.queued, JobStatus.running, JobStatus.completed] = true
          decide
        · intro j hj'
          simp only [List.mem_cons, List.not_mem_nil, or_false] at hj'
          rcases hj' with rfl | rfl | rfl <;> simp [isTerminal, hr, hf]
      | error e =>
        rw [dynamic_handler_failed tick store jobId dsId features k job e hj
          (by rw [hsvc])]
        constructor
        · right
          show (dedupConsec [JobStatus.queued, JobStatus.running,
              JobStatus.failed]).isPrefixOf
              [JobStatus.queued, JobStatus.running, JobStatus.failed] = true
          decide
        · intro j hj'
          simp only [List.mem_cons, List.not_mem_nil, or_false] at hj'
          rcases hj' with rfl | rfl <;> simp [isTerminal, hr, hf]

/-- Witness for C1 at a concrete store holding one freshly queued job. -/
theorem C1_witness :
    traceOK (run_background_analysis regNone none 1 storeEmpty "job-1" 1).2
    ∧ traceOK (run_dynamic_background_analysis 1 storeEmpty "job-1" 1 ["Age"] 5).2 :=
  C1_status_trace regNone none 1 storeEmpty "job-1" 1 ["Age"] 5 (by
    intro j hj
    rw [show findJob storeEmpty "job-1" = some job1 from by decide] at hj
    cases hj
    exact ⟨rfl, rfl, rfl⟩)

end CustomerAnalytics
